import Mathlib

set_option maxRecDepth 4000

/-!
Shallow embedding of the ragenie document-indexing pipeline.

Source files modelled here:
* `services/embedding-worker/app/main.py` (`EmbeddingWorker`): queue fetch,
  per-job processing, ragbot-document indexing, user-upload handling,
  stale-vector deletion, path-metadata extraction.
* `services/file-watcher/app/main.py` (`RagbotDataWatcher._process_file_change`
  and `scan_existing_files`): change detection against the fingerprint cache
  and the `ragbot_documents` table.

Database rows become Lean structures, tables become lists of rows, SQL
statements become list transformations, timestamps are `Nat` values passed in
as `now`, and exceptions become `Except String`.  The text splitter and the
embedding service are external collaborators and are passed in as function
parameters, exactly as they are constructor-injected in the Python code.
-/

namespace Ragenie

/-- Row of the `embedding_queue` table (migration 002). -/
structure QueueJob where
  id : Nat
  document_type : String
  document_id : Nat
  priority : Int
  status : String
  retry_count : Nat
  max_retries : Nat
  error_message : Option String
  created_at : Nat
  started_at : Option Nat
  completed_at : Option Nat
deriving DecidableEq, Repr

/-- Metadata stored on a `ragbot_documents` row: either the provenance dict
written by the file watcher on insert, or the path-derived metadata written by
the embedding worker on successful indexing. -/
inductive DocMetadata where
  | detection (detected_by : String) (seen_at : Nat)
  | extracted (file_path : String) (category : String) (tags : List String)
deriving DecidableEq, Repr

/-- Row of the `ragbot_documents` table (migration 002). -/
structure RagbotDocument where
  id : Nat
  file_path : String
  content_hash : String
  file_size : Nat
  modified_at : Nat
  embedding_status : String
  chunk_count : Nat
  indexed_at : Option Nat
  error_message : Option String
  metadata : Option DocMetadata
  created_at : Nat
  updated_at : Nat
deriving DecidableEq, Repr

/-- Row of the `user_uploads` table. -/
structure UserUpload where
  id : Nat
  filename : String
  file_path : String
  content_hash : String
  user_id : Nat
  embedding_status : String
  error_message : Option String
  updated_at : Nat
deriving DecidableEq, Repr

/-- One Qdrant point as built in `_process_ragbot_document`: the point id is
the string `"{document_id}:{chunk_index}"` and the payload fields are flattened
into the structure.  The embedding vector is kept abstract as a list of
integers (its numeric content plays no role in any claim). -/
structure QdrantPoint where
  id : String
  vector : List Int
  file_path : String
  chunk_index : Nat
  chunk_text : String
  content_hash : String
  source : String
  document_id : Nat
  category : String
  tags : List String
  indexed_at : Nat
deriving DecidableEq, Repr

/-- The state the embedding worker reads and writes: the queue table, the
documents table, the uploads table, the Qdrant collection, the corpus
filesystem (relative path to content), and the Redis document cache. -/
structure WorkerState where
  queue : List QueueJob
  documents : List RagbotDocument
  uploads : List UserUpload
  points : List QdrantPoint
  files : List (String × String)
  cache : List (String × String)
deriving DecidableEq, Repr

/-! ### Work-queue operations (`EmbeddingWorker.process_queue` / `_process_job`) -/

/-- The WHERE clause of the fetch query in `process_queue`:
`status = 'pending' AND retry_count < max_retries`. -/
def pendingEligible (j : QueueJob) : Bool :=
  j.status == "pending" && decide (j.retry_count < j.max_retries)

/-- The ORDER BY clause of the fetch query: `priority DESC, created_at ASC`;
`jobBefore a b` says that row `a` may come before row `b`. -/
def jobBefore (a b : QueueJob) : Bool :=
  decide (b.priority < a.priority) ||
    (a.priority == b.priority && decide (a.created_at ≤ b.created_at))

/-- The fetch query of `process_queue`: select the eligible rows, order them
by priority descending then creation time ascending, and keep at most
`batchSize` of them (`LIMIT $1`).  This is a plain `SELECT`: it takes no row
locks and modifies nothing. -/
def fetchPendingJobs (queue : List QueueJob) (batchSize : Nat) : List QueueJob :=
  ((queue.filter pendingEligible).mergeSort jobBefore).take batchSize

/-- `UPDATE embedding_queue SET status = 'processing', started_at = NOW()
WHERE id = $1` (in `_process_job`, executed separately from the fetch). -/
def markProcessing (queue : List QueueJob) (jobId now : Nat) : List QueueJob :=
  queue.map fun j =>
    if j.id == jobId then { j with status := "processing", started_at := some now } else j

/-- `UPDATE embedding_queue SET status = 'completed', completed_at = NOW()
WHERE id = $1` (in `_process_job`, on success). -/
def markCompleted (queue : List QueueJob) (jobId now : Nat) : List QueueJob :=
  queue.map fun j =>
    if j.id == jobId then { j with status := "completed", completed_at := some now } else j

/-- The `except` branch of `_process_job`: `retry_count` is the fetched row's
count plus one; at or beyond `max_retries` the row is marked `failed` with the
error (truncated to 500 characters) and a completion time, otherwise it is
returned to `pending` with the error recorded. -/
def failJobUpdate (queue : List QueueJob) (job : QueueJob) (err : String) (now : Nat) :
    List QueueJob :=
  let retry := job.retry_count + 1
  if job.max_retries ≤ retry then
    queue.map fun j =>
      if j.id == job.id then
        { j with status := "failed", retry_count := retry,
                 error_message := some (err.take 500), completed_at := some now }
      else j
  else
    queue.map fun j =>
      if j.id == job.id then
        { j with status := "pending", retry_count := retry,
                 error_message := some (err.take 500) }
      else j

/-! ### Indexing pipeline (`EmbeddingWorker._process_ragbot_document`) -/

/-- `Path(file_path).parts` for the corpus-relative POSIX paths used here. -/
def pathParts (p : String) : List String :=
  p.splitOn "/"

/-- `EmbeddingWorker._extract_metadata_from_path`, returning the category and
tags derived from the first path segments. -/
def extractMetadataFromPath (file_path : String) : String × List String :=
  let parts := pathParts file_path
  if 1 < parts.length then
    if parts.getD 0 "" = "curated-datasets" then
      (parts.getD 1 "general", ["curated-dataset"])
    else if parts.getD 0 "" = "custom-instructions" then
      ("custom-instructions", ["custom-instruction"])
    else if parts.getD 0 "" = "prompt-library" then
      (parts.getD 1 "prompts", ["prompt-library"])
    else ("unknown", [])
  else ("unknown", [])

/-- The qdrant scroll call in `_delete_old_embeddings` is issued with
`limit=1000` and its next-page offset is never followed. -/
def scrollLimit : Nat := 1000

/-- The scroll filter of `_delete_old_embeddings`: payload `file_path` and
`source` must both match. -/
def matchesPathSource (file_path source : String) (p : QdrantPoint) : Bool :=
  p.file_path == file_path && p.source == source

/-- `EmbeddingWorker._delete_old_embeddings`: scroll for at most `scrollLimit`
points whose payload matches the given `file_path` and `source`, then delete
the points with those ids (no delete call is made when nothing matched). -/
def deleteOldEmbeddings (points : List QdrantPoint) (file_path source : String) :
    List QdrantPoint :=
  let toDelete := ((points.filter (matchesPathSource file_path source)).take scrollLimit).map
    (fun p => p.id)
  if toDelete.isEmpty then points
  else points.filter (fun p => !(toDelete.contains p.id))

/-- Qdrant `upsert`: points whose id collides with an incoming point are
overwritten, the rest are kept, and the incoming points are stored. -/
def upsertPoints (points newPoints : List QdrantPoint) : List QdrantPoint :=
  points.filter (fun p => !((newPoints.map (fun q => q.id)).contains p.id)) ++ newPoints

/-- `SELECT ... FROM ragbot_documents WHERE id = $1`. -/
def findDocument (docs : List RagbotDocument) (docId : Nat) : Option RagbotDocument :=
  docs.find? (fun d => d.id == docId)

/-- `SELECT ... FROM user_uploads WHERE id = $1`. -/
def findUpload (uploads : List UserUpload) (docId : Nat) : Option UserUpload :=
  uploads.find? (fun u => u.id == docId)

/-- Reading a corpus file at a relative path (`open(full_path).read()`). -/
def readFile (files : List (String × String)) (path : String) : Option String :=
  (files.find? (fun kv => kv.1 == path)).map (fun kv => kv.2)

/-- Association-list update used for the fingerprint cache and the Redis
document cache (`self.file_hashes[k] = v`, `redis.setex(k, ttl, v)`; the TTL
is not modelled). -/
def upsertAssoc (m : List (String × String)) (k v : String) : List (String × String) :=
  if (m.find? (fun kv => kv.1 == k)).isSome then
    m.map (fun kv => if kv.1 == k then (kv.1, v) else kv)
  else m ++ [(k, v)]

/-- One `PointStruct` built in `_process_ragbot_document`: note that the
payload `source` field is the literal `"ragbot-data"`. -/
def mkPoint (docId : Nat) (file_path content_hash : String) (category : String)
    (tags : List String) (now : Nat) (embed : String → List Int) (i : Nat)
    (chunk : String) : QdrantPoint :=
  { id := toString docId ++ ":" ++ toString i
    vector := embed chunk
    file_path := file_path
    chunk_index := i
    chunk_text := chunk
    content_hash := content_hash
    source := "ragbot-data"
    document_id := docId
    category := category
    tags := tags
    indexed_at := now }

/-- `EmbeddingWorker._process_ragbot_document`: load the document row, read
the file, derive metadata, delete old embeddings for the path (with source
argument the literal `'ragbot'`, as in the call on line 203 of the worker),
split into chunks, and either record an empty-document success or embed,
upsert, update the document row, and cache the content. -/
def processRagbotDocument (splitText : String → List String) (embed : String → List Int)
    (now : Nat) (st : WorkerState) (documentId : Nat) : Except String WorkerState :=
  match findDocument st.documents documentId with
  | none => .error ("Document not found: " ++ toString documentId)
  | some doc =>
    match readFile st.files doc.file_path with
    | none => .error ("File not found: " ++ doc.file_path)
    | some content =>
      let md := extractMetadataFromPath doc.file_path
      let points1 := deleteOldEmbeddings st.points doc.file_path "ragbot"
      let chunks := splitText content
      if chunks.isEmpty then
        .ok { st with
          points := points1
          documents := st.documents.map fun d =>
            if d.id == documentId then
              { d with embedding_status := "indexed", chunk_count := 0,
                       indexed_at := some now, error_message := some "Empty document",
                       updated_at := now }
            else d }
      else
        let newPoints := chunks.enum.map fun ic =>
          mkPoint documentId doc.file_path doc.content_hash md.1 md.2 now embed ic.1 ic.2
        .ok { st with
          points := upsertPoints points1 newPoints
          documents := st.documents.map fun d =>
            if d.id == documentId then
              { d with embedding_status := "indexed", chunk_count := chunks.length,
                       indexed_at := some now, error_message := none,
                       metadata := some (.extracted doc.file_path md.1 md.2),
                       updated_at := now }
            else d
          cache := upsertAssoc st.cache ("doc:" ++ doc.file_path) content }

/-- `EmbeddingWorker._process_user_upload`: load the upload row (error when
missing), then record the not-yet-implemented placeholder on it. -/
def processUserUpload (now : Nat) (st : WorkerState) (documentId : Nat) :
    Except String WorkerState :=
  match findUpload st.uploads documentId with
  | none => .error ("User upload not found: " ++ toString documentId)
  | some _ =>
    .ok { st with
      uploads := st.uploads.map fun u =>
        if u.id == documentId then
          { u with embedding_status := "pending",
                   error_message := some "User uploads not yet implemented",
                   updated_at := now }
        else u }

/-- `EmbeddingWorker._process_job`: mark the row `processing`, dispatch on the
`document_type` discriminator, then either mark it `completed` or run the
failure update; the returned flag is the `True` result / re-raised exception
of the Python coroutine. -/
def processJob (splitText : String → List String) (embed : String → List Int)
    (now : Nat) (st : WorkerState) (job : QueueJob) : WorkerState × Bool :=
  let st1 := { st with queue := markProcessing st.queue job.id now }
  let result :=
    if job.document_type == "ragbot" then
      processRagbotDocument splitText embed now st1 job.document_id
    else if job.document_type == "user_upload" then
      processUserUpload now st1 job.document_id
    else
      .error ("Unknown document type: " ++ job.document_type)
  match result with
  | .ok st2 => ({ st2 with queue := markCompleted st2.queue job.id now }, true)
  | .error e => ({ st1 with queue := failJobUpdate st1.queue job e now }, false)

/-! ### Change detector (`services/file-watcher/app/main.py`) -/

/-- The state the file watcher reads and writes: its in-memory fingerprint
cache (`self.file_hashes`), the two tables it touches, and counters for the
ids the database would generate on insert. -/
structure WatcherState where
  fileHashes : List (String × String)
  documents : List RagbotDocument
  queue : List QueueJob
  nextDocId : Nat
  nextJobId : Nat
deriving DecidableEq, Repr

/-- `SELECT ... FROM ragbot_documents WHERE file_path = $1`. -/
def findDocumentByPath (docs : List RagbotDocument) (path : String) :
    Option RagbotDocument :=
  docs.find? (fun d => d.file_path == path)

/-- Cache lookup `self.file_hashes.get(relative_path)`. -/
def lookupHash (cache : List (String × String)) (path : String) : Option String :=
  (cache.find? (fun kv => kv.1 == path)).map (fun kv => kv.2)

/-- Queue row created by the watcher's
`INSERT INTO embedding_queue (document_type, document_id, priority, status)
VALUES ('ragbot', $1, p, 'pending')`; the remaining columns take their server
defaults (`retry_count` 0, `max_retries` 3, `created_at` now). -/
def newQueueJob (jobId docId : Nat) (priority : Int) (now : Nat) : QueueJob :=
  { id := jobId
    document_type := "ragbot"
    document_id := docId
    priority := priority
    status := "pending"
    retry_count := 0
    max_retries := 3
    error_message := none
    created_at := now
    started_at := none
    completed_at := none }

/-- Document row created by the watcher's `INSERT INTO ragbot_documents ...
VALUES ($1, $2, $3, $4, 'pending', $5, NOW(), NOW())`. -/
def newRagbotDocument (docId : Nat) (path h : String) (size mtime : Nat)
    (detectedBy : String) (now : Nat) : RagbotDocument :=
  { id := docId
    file_path := path
    content_hash := h
    file_size := size
    modified_at := mtime
    embedding_status := "pending"
    chunk_count := 0
    indexed_at := none
    error_message := none
    metadata := some (.detection detectedBy now)
    created_at := now
    updated_at := now }

/-- The `UPDATE ragbot_documents SET content_hash = $1, file_size = $2,
modified_at = $3, embedding_status = 'pending', chunk_count = 0,
indexed_at = NULL, error_message = NULL, updated_at = NOW()
WHERE file_path = $4` shared by both change-detection paths. -/
def resetDocumentForPath (docs : List RagbotDocument) (path h : String)
    (size mtime now : Nat) : List RagbotDocument :=
  docs.map fun d =>
    if d.file_path == path then
      { d with content_hash := h, file_size := size, modified_at := mtime,
               embedding_status := "pending", chunk_count := 0,
               indexed_at := none, error_message := none, updated_at := now }
    else d

/-- `RagbotDataWatcher._process_file_change`: the inputs are the stat results
and the computed content hash (an empty hash string signals a hashing failure
and aborts, as in `_compute_file_hash`).  The in-memory cache short-circuits
first; then the database row decides between no-op, reset-and-requeue
(priority 10), and insert-and-queue (priority 10).  In the Python the cache
write happens once, before the database query; here it is recorded in each of
the three continuing branches, which is the same state change. -/
def processFileChange (st : WatcherState) (relativePath contentHash : String)
    (fileSize modifiedAt now : Nat) : WatcherState :=
  if contentHash == "" then st
  else if lookupHash st.fileHashes relativePath == some contentHash then st
  else
    match findDocumentByPath st.documents relativePath with
    | some existing =>
      if existing.content_hash == contentHash then
        { st with fileHashes := upsertAssoc st.fileHashes relativePath contentHash }
      else
        { st with
          fileHashes := upsertAssoc st.fileHashes relativePath contentHash
          documents := resetDocumentForPath st.documents relativePath contentHash
            fileSize modifiedAt now
          queue := st.queue ++ [newQueueJob st.nextJobId existing.id 10 now]
          nextJobId := st.nextJobId + 1 }
    | none =>
      { st with
        fileHashes := upsertAssoc st.fileHashes relativePath contentHash
        documents := st.documents ++
          [newRagbotDocument st.nextDocId relativePath contentHash fileSize modifiedAt
            "file_watcher" now]
        queue := st.queue ++ [newQueueJob st.nextJobId st.nextDocId 10 now]
        nextDocId := st.nextDocId + 1
        nextJobId := st.nextJobId + 1 }

/-- The per-file body of `scan_existing_files` (startup reconciliation): no
in-memory cache is consulted; a new path is inserted and queued at priority 5,
a changed hash resets the row and queues at priority 5, an unchanged hash does
nothing. -/
def scanFile (st : WatcherState) (relativePath contentHash : String)
    (fileSize modifiedAt now : Nat) : WatcherState :=
  match findDocumentByPath st.documents relativePath with
  | none =>
    { st with
      documents := st.documents ++
        [newRagbotDocument st.nextDocId relativePath contentHash fileSize modifiedAt
          "initial_scan" now]
      queue := st.queue ++ [newQueueJob st.nextJobId st.nextDocId 5 now]
      nextDocId := st.nextDocId + 1
      nextJobId := st.nextJobId + 1 }
  | some existing =>
    if existing.content_hash == contentHash then st
    else
      { st with
        documents := resetDocumentForPath st.documents relativePath contentHash
          fileSize modifiedAt now
        queue := st.queue ++ [newQueueJob st.nextJobId existing.id 5 now]
        nextJobId := st.nextJobId + 1 }

/-! ### Two concurrent worker instances

`process_queue` fetches with a plain `SELECT` (no locking clause and no
transaction spanning the later `UPDATE`), and `_process_job` marks each
fetched row `processing` in a separate statement.  The interleaving of two
worker instances is modelled as a step relation over the shared queue table
plus each worker's fetched batch and the set of job ids it has claimed. -/

structure TwoWorkerState where
  queue : List QueueJob
  fetchedA : Option (List Nat)
  fetchedB : Option (List Nat)
  claimedA : List Nat
  claimedB : List Nat
deriving DecidableEq, Repr

/-- One scheduler step of the two-worker system: each worker may run its
fetch query once (a pure read of the shared queue) and may then mark any job
of its fetched batch as `processing`, claiming it. -/
inductive TwoWorkerStep : TwoWorkerState → TwoWorkerState → Prop where
  | fetchA (s : TwoWorkerState) (n : Nat) (h : s.fetchedA = none) :
      TwoWorkerStep s
        { s with fetchedA := some ((fetchPendingJobs s.queue n).map (fun j => j.id)) }
  | fetchB (s : TwoWorkerState) (n : Nat) (h : s.fetchedB = none) :
      TwoWorkerStep s
        { s with fetchedB := some ((fetchPendingJobs s.queue n).map (fun j => j.id)) }
  | markA (s : TwoWorkerState) (jid now : Nat) (ids : List Nat)
      (hf : s.fetchedA = some ids) (hm : jid ∈ ids) :
      TwoWorkerStep s
        { s with queue := markProcessing s.queue jid now, claimedA := jid :: s.claimedA }
  | markB (s : TwoWorkerState) (jid now : Nat) (ids : List Nat)
      (hf : s.fetchedB = some ids) (hm : jid ∈ ids) :
      TwoWorkerStep s
        { s with queue := markProcessing s.queue jid now, claimedB := jid :: s.claimedB }

/-- Reachability under interleaved two-worker execution. -/
def TwoWorkerReachable : TwoWorkerState → TwoWorkerState → Prop :=
  Relation.ReflTransGen TwoWorkerStep

/-! ### Helper lemmas -/

lemma jobBefore_total (a b : QueueJob) : (jobBefore a b || jobBefore b a) = true := by
  simp only [jobBefore, Bool.or_eq_true, decide_eq_true_eq, Bool.and_eq_true, beq_iff_eq]
  rcases lt_trichotomy a.priority b.priority with h | h | h
  · exact Or.inr (Or.inl h)
  · rcases Nat.le_total a.created_at b.created_at with hc | hc
    · exact Or.inl (Or.inr ⟨h, hc⟩)
    · exact Or.inr (Or.inr ⟨h.symm, hc⟩)
  · exact Or.inl (Or.inl h)

lemma jobBefore_trans (a b c : QueueJob) (hab : jobBefore a b = true)
    (hbc : jobBefore b c = true) : jobBefore a c = true := by
  simp only [jobBefore, Bool.or_eq_true, decide_eq_true_eq, Bool.and_eq_true,
    beq_iff_eq] at hab hbc ⊢
  rcases hab with hab | ⟨hab, hab'⟩
  · rcases hbc with hbc | ⟨hbc, _⟩
    · exact Or.inl (hbc.trans hab)
    · exact Or.inl (hbc ▸ hab)
  · rcases hbc with hbc | ⟨hbc, hbc'⟩
    · exact Or.inl (hab ▸ hbc)
    · exact Or.inr ⟨hab.trans hbc, hab'.trans hbc'⟩

lemma mem_fetchPendingJobs {j : QueueJob} {queue : List QueueJob} {n : Nat}
    (h : j ∈ fetchPendingJobs queue n) :
    j ∈ queue ∧ j.status = "pending" ∧ j.retry_count < j.max_retries := by
  unfold fetchPendingJobs at h
  have h1 : j ∈ (queue.filter pendingEligible).mergeSort jobBefore :=
    List.take_subset n _ h
  have h2 : j ∈ queue.filter pendingEligible :=
    (List.mergeSort_perm (queue.filter pendingEligible) jobBefore).mem_iff.mp h1
  have h3 := List.mem_filter.mp h2
  refine ⟨h3.1, ?_⟩
  have h4 := h3.2
  simp only [pendingEligible, Bool.and_eq_true, beq_iff_eq, decide_eq_true_eq] at h4
  exact h4

lemma fetchPendingJobs_pairwise (queue : List QueueJob) (n : Nat) :
    List.Pairwise (fun a b => jobBefore a b = true) (fetchPendingJobs queue n) := by
  unfold fetchPendingJobs
  exact List.Pairwise.sublist (List.take_sublist n _)
    (@List.sorted_mergeSort QueueJob jobBefore jobBefore_trans jobBefore_total
      (queue.filter pendingEligible))

lemma markProcessing_spec (queue : List QueueJob) (jid now : Nat) :
    ∀ j' ∈ markProcessing queue jid now, j'.id = jid →
      j'.status = "processing" ∧ j'.started_at = some now := by
  intro j' hj' hid
  unfold markProcessing at hj'
  rcases List.mem_map.mp hj' with ⟨j, _, rfl⟩
  by_cases h : j.id = jid
  · simp [h]
  · simp [h] at hid

lemma markCompleted_spec (queue : List QueueJob) (jid now : Nat) :
    ∀ j' ∈ markCompleted queue jid now, j'.id = jid →
      j'.status = "completed" ∧ j'.completed_at = some now := by
  intro j' hj' hid
  unfold markCompleted at hj'
  rcases List.mem_map.mp hj' with ⟨j, _, rfl⟩
  by_cases h : j.id = jid
  · simp [h]
  · simp [h] at hid

lemma failJobUpdate_mem_spec (queue : List QueueJob) (job : QueueJob) (err : String)
    (now : Nat) :
    ∀ j' ∈ failJobUpdate queue job err now, j'.id = job.id →
      (job.max_retries ≤ job.retry_count + 1 →
        j'.status = "failed" ∧ j'.retry_count = job.retry_count + 1 ∧
        j'.error_message = some (err.take 500) ∧ j'.completed_at = some now) ∧
      (job.retry_count + 1 < job.max_retries →
        j'.status = "pending" ∧ j'.retry_count = job.retry_count + 1 ∧
        j'.error_message = some (err.take 500)) := by
  intro j' hj' hid
  unfold failJobUpdate at hj'
  by_cases hmax : job.max_retries ≤ job.retry_count + 1
  · rw [if_pos hmax] at hj'
    rcases List.mem_map.mp hj' with ⟨j, _, rfl⟩
    by_cases h : j.id = job.id
    · constructor
      · intro _
        simp [h]
      · intro hlt
        exact absurd hmax (not_le.mpr hlt)
    · simp [h] at hid
  · rw [if_neg hmax] at hj'
    rcases List.mem_map.mp hj' with ⟨j, _, rfl⟩
    by_cases h : j.id = job.id
    · constructor
      · intro hge
        exact absurd hge hmax
      · intro _
        simp [h]
    · simp [h] at hid

lemma resetDocumentForPath_spec (docs : List RagbotDocument) (path h : String)
    (size mtime now : Nat) :
    ∀ d ∈ resetDocumentForPath docs path h size mtime now, d.file_path = path →
      d.content_hash = h ∧ d.file_size = size ∧ d.modified_at = mtime ∧
      d.embedding_status = "pending" ∧ d.chunk_count = 0 ∧
      d.indexed_at = none ∧ d.error_message = none := by
  intro d hd hpath
  unfold resetDocumentForPath at hd
  rcases List.mem_map.mp hd with ⟨d0, _, rfl⟩
  by_cases hp : d0.file_path = path
  · simp [hp]
  · simp [hp] at hpath

lemma deleteOldEmbeddings_subset (points : List QdrantPoint) (fp src : String) :
    ∀ p ∈ deleteOldEmbeddings points fp src, p ∈ points := by
  intro p hp
  unfold deleteOldEmbeddings at hp
  by_cases h : (((points.filter (matchesPathSource fp src)).take scrollLimit).map
      (fun q => q.id)).isEmpty
  · rw [if_pos h] at hp
    exact hp
  · rw [if_neg h] at hp
    exact List.mem_of_mem_filter hp

/-! ### Claim C9: dequeue selection -/

/-- C9: every dequeue selects at most `batch_size` jobs, all with status
`pending` and `retry_count < max_retries`, ordered by priority descending and
within equal priority by creation time ascending, and each selected job is
marked `processing` with a started timestamp set. -/
theorem dequeue_selection_spec (queue : List QueueJob) (batchSize now : Nat) :
    (fetchPendingJobs queue batchSize).length ≤ batchSize ∧
    (∀ j ∈ fetchPendingJobs queue batchSize,
      j.status = "pending" ∧ j.retry_count < j.max_retries) ∧
    List.Pairwise (fun a b => b.priority ≤ a.priority ∧
      (a.priority = b.priority → a.created_at ≤ b.created_at))
      (fetchPendingJobs queue batchSize) ∧
    (∀ j ∈ fetchPendingJobs queue batchSize,
      ∀ j' ∈ markProcessing queue j.id now, j'.id = j.id →
        j'.status = "processing" ∧ j'.started_at = some now) := by
  refine ⟨?_, ?_, ?_, ?_⟩
  · unfold fetchPendingJobs
    exact List.length_take_le _ _
  · intro j hj
    exact (mem_fetchPendingJobs hj).2
  · refine (fetchPendingJobs_pairwise queue batchSize).imp ?_
    intro a b hab
    simp only [jobBefore, Bool.or_eq_true, decide_eq_true_eq, Bool.and_eq_true,
      beq_iff_eq] at hab
    rcases hab with h | ⟨h, h'⟩
    · exact ⟨le_of_lt h, fun he => absurd (he ▸ h) (lt_irrefl _)⟩
    · exact ⟨le_of_eq h.symm, fun _ => h'⟩
  · intro j _
    exact markProcessing_spec queue j.id now

/-- Concrete pending job used to exercise the dequeue theorems. -/
def c9Job : QueueJob :=
  { id := 1, document_type := "ragbot", document_id := 1, priority := 5,
    status := "pending", retry_count := 0, max_retries := 3, error_message := none,
    created_at := 0, started_at := none, completed_at := none }

/-- Witness for C9 at a concrete one-job queue. -/
theorem dequeue_selection_spec_witness :
    (fetchPendingJobs [c9Job] 2).length ≤ 2 :=
  (dequeue_selection_spec [c9Job] 2 0).1

/-! ### Claim C2: retry semantics on failure -/

/-- C2: when a job fails, if `retry_count + 1 ≥ max_retries` its row becomes
`failed` with the error recorded and it is never again returned by the
dequeue query; otherwise `retry_count` is incremented by exactly 1, the
status is reset to `pending`, and the error is recorded. -/
theorem fail_retry_semantics (queue : List QueueJob) (job : QueueJob) (err : String)
    (now : Nat) (j' : QueueJob) (hmem : j' ∈ failJobUpdate queue job err now)
    (hid : j'.id = job.id) :
    (job.max_retries ≤ job.retry_count + 1 →
      j'.status = "failed" ∧ j'.retry_count = job.retry_count + 1 ∧
      j'.error_message = some (err.take 500) ∧
      ∀ q n, j' ∉ fetchPendingJobs q n) ∧
    (job.retry_count + 1 < job.max_retries →
      j'.status = "pending" ∧ j'.retry_count = job.retry_count + 1 ∧
      j'.error_message = some (err.take 500)) := by
  have h := failJobUpdate_mem_spec queue job err now j' hmem hid
  refine ⟨?_, h.2⟩
  intro hge
  have hf := h.1 hge
  refine ⟨hf.1, hf.2.1, hf.2.2.1, ?_⟩
  intro q n hmem'
  have hp := (mem_fetchPendingJobs hmem').2.1
  rw [hf.1] at hp
  exact absurd hp (by decide)

/-- Concrete job one failure away from exhaustion. -/
def c2Job : QueueJob :=
  { id := 1, document_type := "ragbot", document_id := 1, priority := 5,
    status := "processing", retry_count := 2, max_retries := 3, error_message := none,
    created_at := 0, started_at := some 1, completed_at := none }

/-- The row `c2Job` becomes when it fails with error `"boom"` at time 7. -/
def c2FailedJob : QueueJob :=
  { c2Job with
    status := "failed"
    retry_count := 3
    error_message := some "boom"
    completed_at := some 7 }

lemma c2_failJobUpdate_eval : failJobUpdate [c2Job] c2Job "boom" 7 = [c2FailedJob] := by
  have ht : ("boom" : String).take 500 = "boom" := by
    rw [String.take_eq]
    decide
  simp [failJobUpdate, c2Job, c2FailedJob, ht]

/-- Witness for C2: the concrete exhausted job is `failed` and is not
returned by a dequeue from a queue containing it. -/
theorem fail_retry_semantics_witness :
    c2FailedJob.status = "failed" ∧ c2FailedJob ∉ fetchPendingJobs [c2FailedJob] 5 := by
  have hmem : c2FailedJob ∈ failJobUpdate [c2Job] c2Job "boom" 7 := by
    rw [c2_failJobUpdate_eval]
    exact List.mem_singleton_self _
  have h := (fail_retry_semantics [c2Job] c2Job "boom" 7 c2FailedJob hmem rfl).1
    (by decide)
  exact ⟨h.1, h.2.2.2 [c2FailedJob] 5⟩

/-! ### Claim C7: unchanged fingerprint is a no-op -/

/-- C7: when a document record already carries the observed fingerprint, the
change detector neither creates a queue job nor modifies the record, in both
the watch event path and the startup scan path. -/
theorem unchanged_fingerprint_noop (st : WatcherState) (p h : String)
    (size mtime now : Nat) (doc : RagbotDocument)
    (hfind : findDocumentByPath st.documents p = some doc)
    (hhash : doc.content_hash = h) :
    (processFileChange st p h size mtime now).documents = st.documents ∧
    (processFileChange st p h size mtime now).queue = st.queue ∧
    (scanFile st p h size mtime now).documents = st.documents ∧
    (scanFile st p h size mtime now).queue = st.queue := by
  have hscan : scanFile st p h size mtime now = st := by
    unfold scanFile
    rw [hfind]
    simp [hhash]
  have hbeq : (doc.content_hash == h) = true := beq_iff_eq.mpr hhash
  have hpc : (processFileChange st p h size mtime now).documents = st.documents ∧
      (processFileChange st p h size mtime now).queue = st.queue := by
    unfold processFileChange
    by_cases h0 : (h == "") = true
    · simp [h0]
    · by_cases h1 : (lookupHash st.fileHashes p == some h) = true
      · simp [h0, h1]
      · simp [h0, h1, hfind, hbeq]
  exact ⟨hpc.1, hpc.2, by rw [hscan], by rw [hscan]⟩

/-- Concrete document record for the C7 witness. -/
def c7Doc : RagbotDocument :=
  { id := 1, file_path := "p", content_hash := "h", file_size := 3,
    modified_at := 4, embedding_status := "indexed", chunk_count := 2,
    indexed_at := some 4, error_message := none, metadata := none,
    created_at := 0, updated_at := 4 }

/-- Concrete watcher state for the C7 witness. -/
def c7State : WatcherState :=
  { fileHashes := [], documents := [c7Doc], queue := [], nextDocId := 2, nextJobId := 1 }

/-- Witness for C7 at a concrete state containing an up-to-date record. -/
theorem unchanged_fingerprint_noop_witness :
    (processFileChange c7State "p" "h" 3 4 5).documents = c7State.documents ∧
    (processFileChange c7State "p" "h" 3 4 5).queue = c7State.queue ∧
    (scanFile c7State "p" "h" 3 4 5).documents = c7State.documents ∧
    (scanFile c7State "p" "h" 3 4 5).queue = c7State.queue :=
  unchanged_fingerprint_noop c7State "p" "h" 3 4 5 c7Doc (by decide) (by decide)

/-! ### Claim C8: changed fingerprint resets the record and enqueues -/

/-- C8: when an existing document record's fingerprint is observed to have
changed (the observation not being masked by the in-memory cache on the event
path), the change detector resets the record to `pending` — updating
fingerprint, size and mtime and clearing chunk count, indexed time and error —
and appends one queue job for the document, in both the watch event path and
the startup scan path. -/
theorem changed_fingerprint_resets (st : WatcherState) (p h : String)
    (size mtime now : Nat) (doc : RagbotDocument)
    (hfind : findDocumentByPath st.documents p = some doc)
    (hne : doc.content_hash ≠ h)
    (hcache : lookupHash st.fileHashes p ≠ some h)
    (hh : h ≠ "") :
    (∀ d ∈ (processFileChange st p h size mtime now).documents, d.file_path = p →
      d.content_hash = h ∧ d.file_size = size ∧ d.modified_at = mtime ∧
      d.embedding_status = "pending" ∧ d.chunk_count = 0 ∧ d.indexed_at = none ∧
      d.error_message = none) ∧
    (processFileChange st p h size mtime now).queue =
      st.queue ++ [newQueueJob st.nextJobId doc.id 10 now] ∧
    (∀ d ∈ (scanFile st p h size mtime now).documents, d.file_path = p →
      d.content_hash = h ∧ d.file_size = size ∧ d.modified_at = mtime ∧
      d.embedding_status = "pending" ∧ d.chunk_count = 0 ∧ d.indexed_at = none ∧
      d.error_message = none) ∧
    (scanFile st p h size mtime now).queue =
      st.queue ++ [newQueueJob st.nextJobId doc.id 5 now] := by
  have e1 : (h == "") = false := beq_eq_false_iff_ne.mpr hh
  have e2 : (lookupHash st.fileHashes p == some h) = false :=
    beq_eq_false_iff_ne.mpr hcache
  have e3 : (doc.content_hash == h) = false := beq_eq_false_iff_ne.mpr hne
  have hpc : processFileChange st p h size mtime now =
      { st with
        fileHashes := upsertAssoc st.fileHashes p h
        documents := resetDocumentForPath st.documents p h size mtime now
        queue := st.queue ++ [newQueueJob st.nextJobId doc.id 10 now]
        nextJobId := st.nextJobId + 1 } := by
    unfold processFileChange
    rw [e1, e2]
    simp only [Bool.false_eq_true, if_false, hfind, e3]
  have hscan : scanFile st p h size mtime now =
      { st with
        documents := resetDocumentForPath st.documents p h size mtime now
        queue := st.queue ++ [newQueueJob st.nextJobId doc.id 5 now]
        nextJobId := st.nextJobId + 1 } := by
    unfold scanFile
    rw [hfind]
    simp only [e3, Bool.false_eq_true, if_false]
  rw [hpc, hscan]
  exact ⟨resetDocumentForPath_spec st.documents p h size mtime now, rfl,
    resetDocumentForPath_spec st.documents p h size mtime now, rfl⟩

/-- Concrete document record for the C8 witness (stored fingerprint `h0`). -/
def c8Doc : RagbotDocument :=
  { id := 1, file_path := "p", content_hash := "h0", file_size := 3,
    modified_at := 4, embedding_status := "indexed", chunk_count := 2,
    indexed_at := some 4, error_message := none, metadata := none,
    created_at := 0, updated_at := 4 }

/-- Concrete watcher state for the C8 witness. -/
def c8State : WatcherState :=
  { fileHashes := [], documents := [c8Doc], queue := [], nextDocId := 2, nextJobId := 1 }

/-- Witness for C8 at a concrete state whose record holds an older
fingerprint than the observed one. -/
theorem changed_fingerprint_resets_witness :
    (processFileChange c8State "p" "h1" 6 7 8).queue =
      c8State.queue ++ [newQueueJob c8State.nextJobId c8Doc.id 10 8] ∧
    (scanFile c8State "p" "h1" 6 7 8).queue =
      c8State.queue ++ [newQueueJob c8State.nextJobId c8Doc.id 5 8] := by
  have hth := changed_fingerprint_resets c8State "p" "h1" 6 7 8 c8Doc (by decide)
    (by decide) (by decide) (by decide)
  exact ⟨hth.2.1, hth.2.2.2⟩

/-! ### Claim C10: user_upload jobs -/

lemma uploadPlaceholder_spec (uploads : List UserUpload) (docId now : Nat) :
    ∀ u ∈ uploads.map (fun u =>
      if u.id == docId then
        { u with embedding_status := "pending",
                 error_message := some "User uploads not yet implemented",
                 updated_at := now }
      else u), u.id = docId →
      u.embedding_status = "pending" ∧
      u.error_message = some "User uploads not yet implemented" := by
  intro u hu hid
  rcases List.mem_map.mp hu with ⟨u0, _, rfl⟩
  by_cases h : u0.id = docId
  · simp [h]
  · simp [h] at hid

/-- C10: a `user_upload` job whose upload record exists always ends with the
queue job marked `completed`, while the upload row's embedding status is set
back to `pending` with the not-yet-implemented message; no vectors are
written and the documents table is untouched. -/
theorem user_upload_job_completed (splitText : String → List String)
    (embed : String → List Int) (now : Nat) (st : WorkerState) (job : QueueJob)
    (upload : UserUpload) (htype : job.document_type = "user_upload")
    (hup : findUpload st.uploads job.document_id = some upload) :
    (processJob splitText embed now st job).2 = true ∧
    (∀ j' ∈ (processJob splitText embed now st job).1.queue, j'.id = job.id →
      j'.status = "completed" ∧ j'.completed_at = some now) ∧
    (∀ u ∈ (processJob splitText embed now st job).1.uploads, u.id = job.document_id →
      u.embedding_status = "pending" ∧
      u.error_message = some "User uploads not yet implemented") ∧
    (processJob splitText embed now st job).1.points = st.points ∧
    (processJob splitText embed now st job).1.documents = st.documents := by
  have hbr : (job.document_type == "ragbot") = false := by
    rw [htype]
    decide
  have hbu : (job.document_type == "user_upload") = true := by
    rw [htype]
    decide
  have hrun : processJob splitText embed now st job =
      ({ st with
          queue := markCompleted (markProcessing st.queue job.id now) job.id now
          uploads := st.uploads.map fun u =>
            if u.id == job.document_id then
              { u with embedding_status := "pending",
                       error_message := some "User uploads not yet implemented",
                       updated_at := now }
            else u }, true) := by
    unfold processJob processUserUpload
    rw [hbr, hbu]
    simp [hup]
  rw [hrun]
  exact ⟨rfl, markCompleted_spec _ job.id now,
    uploadPlaceholder_spec st.uploads job.document_id now, rfl, rfl⟩

/-- Concrete upload row for the C10 witness. -/
def c10Upload : UserUpload :=
  { id := 2, filename := "f.pdf", file_path := "u/f.pdf", content_hash := "h",
    user_id := 9, embedding_status := "pending", error_message := none, updated_at := 0 }

/-- Concrete queue job referencing `c10Upload`. -/
def c10Job : QueueJob :=
  { id := 1, document_type := "user_upload", document_id := 2, priority := 5,
    status := "pending", retry_count := 0, max_retries := 3, error_message := none,
    created_at := 0, started_at := none, completed_at := none }

/-- Concrete worker state for the C10 witness. -/
def c10State : WorkerState :=
  { queue := [c10Job], documents := [], uploads := [c10Upload], points := [],
    files := [], cache := [] }

/-- Splitter used by the concrete worker runs: empty text gives no chunks,
anything else one chunk. -/
def simpleSplit : String → List String := fun s => if s == "" then [] else [s]

/-- Embedding stub used by the concrete worker runs. -/
def simpleEmbed : String → List Int := fun _ => [0]

/-- Witness for C10 at a concrete state. -/
theorem user_upload_job_completed_witness :
    (processJob simpleSplit simpleEmbed 7 c10State c10Job).2 = true ∧
    (processJob simpleSplit simpleEmbed 7 c10State c10Job).1.points = c10State.points := by
  have h := user_upload_job_completed simpleSplit simpleEmbed 7 c10State c10Job
    c10Upload rfl (by decide)
  exact ⟨h.1, h.2.2.2.1⟩

/-! ### Claim C5: empty documents -/

/-- Concrete document record whose file is empty. -/
def c5Doc : RagbotDocument :=
  { id := 1, file_path := "p", content_hash := "e3b0", file_size := 0,
    modified_at := 1, embedding_status := "pending", chunk_count := 0,
    indexed_at := none, error_message := none, metadata := none,
    created_at := 0, updated_at := 1 }

/-- Concrete worker state whose corpus holds an empty file at `p`. -/
def c5State : WorkerState :=
  { queue := [], documents := [c5Doc], uploads := [], points := [],
    files := [("p", "")], cache := [] }

/-- C5 counterexample: processing the empty document at `p` records the note
`"Empty document"` in the document's `error_message` field, so an error
message is recorded on the document, contrary to the claim's "no error is
recorded". -/
theorem empty_document_records_note :
    ((processRagbotDocument simpleSplit simpleEmbed 7 c5State 1).toOption.bind
      (fun stf => stf.documents.find? (fun d => d.id == 1))).map
        RagbotDocument.error_message = some (some "Empty document") ∧
    ¬(((processRagbotDocument simpleSplit simpleEmbed 7 c5State 1).toOption.bind
      (fun stf => stf.documents.find? (fun d => d.id == 1))).map
        RagbotDocument.error_message = some none) := by decide

/-- C5 amended: a zero-chunk document is treated as success: the run returns
without error, the record becomes `indexed` with `chunk_count = 0` and an
indexed timestamp, no vectors are written, and the explanatory note
`"Empty document"` is stored in the record's `error_message` field. -/
theorem empty_document_indexed (splitText : String → List String)
    (embed : String → List Int) (now : Nat) (st : WorkerState) (docId : Nat)
    (doc : RagbotDocument) (content : String)
    (hdoc : findDocument st.documents docId = some doc)
    (hfile : readFile st.files doc.file_path = some content)
    (hchunks : splitText content = []) :
    ∃ stf, processRagbotDocument splitText embed now st docId = Except.ok stf ∧
      (∀ d ∈ stf.documents, d.id = docId →
        d.embedding_status = "indexed" ∧ d.chunk_count = 0 ∧
        d.indexed_at = some now ∧ d.error_message = some "Empty document") ∧
      (∀ pt ∈ stf.points, pt ∈ st.points) ∧
      stf.queue = st.queue := by
  have hrun : processRagbotDocument splitText embed now st docId =
      Except.ok { st with
        points := deleteOldEmbeddings st.points doc.file_path "ragbot"
        documents := st.documents.map fun d =>
          if d.id == docId then
            { d with embedding_status := "indexed", chunk_count := 0,
                     indexed_at := some now, error_message := some "Empty document",
                     updated_at := now }
          else d } := by
    unfold processRagbotDocument
    simp only [hdoc, hfile]
    simp [hchunks]
  refine ⟨_, hrun, ?_, ?_, rfl⟩
  · intro d hd hid
    rcases List.mem_map.mp hd with ⟨d0, _, rfl⟩
    by_cases h : d0.id = docId
    · simp [h]
    · simp [h] at hid
  · exact deleteOldEmbeddings_subset st.points doc.file_path "ragbot"

/-- Witness for the amended C5 at the concrete empty-document state. -/
theorem empty_document_indexed_witness :
    ∃ stf, processRagbotDocument simpleSplit simpleEmbed 7 c5State 1 = Except.ok stf ∧
      (∀ d ∈ stf.documents, d.id = 1 →
        d.embedding_status = "indexed" ∧ d.chunk_count = 0 ∧
        d.indexed_at = some 7 ∧ d.error_message = some "Empty document") ∧
      (∀ pt ∈ stf.points, pt ∈ c5State.points) ∧
      stf.queue = c5State.queue :=
  empty_document_indexed simpleSplit simpleEmbed 7 c5State 1 c5Doc ""
    (by decide) (by decide) (by decide)

/-! ### Claim C6: missing document record -/

/-- Concrete job referencing a document id that is not in the table. -/
def c6Job : QueueJob :=
  { id := 1, document_type := "ragbot", document_id := 9, priority := 5,
    status := "pending", retry_count := 0, max_retries := 3, error_message := none,
    created_at := 0, started_at := none, completed_at := none }

/-- Concrete worker state with an empty documents table. -/
def c6State : WorkerState :=
  { queue := [c6Job], documents := [], uploads := [], points := [],
    files := [], cache := [] }

/-- C6 counterexample: the first failure of a job whose document record is
absent leaves the job `pending` with `retry_count = 1` — it is retried like
any other failure, not failed permanently on first failure as the claim
states. -/
theorem document_not_found_first_failure_not_permanent :
    ((processJob simpleSplit simpleEmbed 7 c6State c6Job).1.queue.find?
      (fun j => j.id == 1)).map QueueJob.status = some "pending" ∧
    ((processJob simpleSplit simpleEmbed 7 c6State c6Job).1.queue.find?
      (fun j => j.id == 1)).map QueueJob.retry_count = some 1 := by decide

/-- C6 amended: a job whose document record is absent fails with the
not-found error, but that error goes through the generic retry path: below
`max_retries` the job is returned to `pending` with `retry_count` incremented
and the not-found error recorded, exactly like any other failure. -/
theorem document_not_found_retried (splitText : String → List String)
    (embed : String → List Int) (now : Nat) (st : WorkerState) (job : QueueJob)
    (htype : job.document_type = "ragbot")
    (hdoc : findDocument st.documents job.document_id = none)
    (hretry : job.retry_count + 1 < job.max_retries) :
    (processJob splitText embed now st job).2 = false ∧
    ∀ j' ∈ (processJob splitText embed now st job).1.queue, j'.id = job.id →
      j'.status = "pending" ∧ j'.retry_count = job.retry_count + 1 ∧
      j'.error_message =
        some (("Document not found: " ++ toString job.document_id).take 500) := by
  have hbr : (job.document_type == "ragbot") = true := by
    rw [htype]
    decide
  have hrun : processJob splitText embed now st job =
      ({ st with
          queue :=
            failJobUpdate (markProcessing st.queue job.id now) job
              ("Document not found: " ++ toString job.document_id) now },
        false) := by
    unfold processJob processRagbotDocument
    rw [hbr]
    simp [hdoc]
  rw [hrun]
  refine ⟨rfl, ?_⟩
  intro j' hj' hid
  exact (failJobUpdate_mem_spec _ job _ now j' hj' hid).2 hretry

/-- Witness for the amended C6 at the concrete missing-document state. -/
theorem document_not_found_retried_witness :
    (processJob simpleSplit simpleEmbed 7 c6State c6Job).2 = false :=
  (document_not_found_retried simpleSplit simpleEmbed 7 c6State c6Job rfl
    (by decide) (by decide)).1

/-! ### Claim C4: exhaustion is not reflected onto the document record -/

/-- Concrete job two failures in, one away from exhaustion. -/
def c4Job : QueueJob :=
  { id := 1, document_type := "ragbot", document_id := 1, priority := 5,
    status := "pending", retry_count := 2, max_retries := 3, error_message := none,
    created_at := 0, started_at := none, completed_at := none }

/-- Concrete document record whose corpus file has been removed. -/
def c4Doc : RagbotDocument :=
  { id := 1, file_path := "p", content_hash := "h2", file_size := 5,
    modified_at := 1, embedding_status := "pending", chunk_count := 0,
    indexed_at := none, error_message := none, metadata := none,
    created_at := 0, updated_at := 1 }

/-- Concrete worker state: document row present, corpus file missing. -/
def c4State : WorkerState :=
  { queue := [c4Job], documents := [c4Doc], uploads := [], points := [],
    files := [], cache := [] }

/-- C4 counterexample: the job exhausts its retries and is marked `failed`,
yet the documents table is left exactly as it was — the document's status
stays `pending` and no error is recorded on it, contrary to the claim. -/
theorem exhausted_job_does_not_update_document :
    ((processJob simpleSplit simpleEmbed 7 c4State c4Job).1.queue.find?
      (fun j => j.id == 1)).map QueueJob.status = some "failed" ∧
    (processJob simpleSplit simpleEmbed 7 c4State c4Job).1.documents = [c4Doc] := by
  decide

/-- C4 amended: when a ragbot job's processing fails and the retries are
exhausted, the failure is recorded only on the QueueJob — status `failed`
with the error message — while the DocumentRecord table (and the vector
store) are left unchanged by the failure path. -/
theorem job_failure_leaves_document_alone (splitText : String → List String)
    (embed : String → List Int) (now : Nat) (st : WorkerState) (job : QueueJob)
    (e : String) (htype : job.document_type = "ragbot")
    (herr : processRagbotDocument splitText embed now
      { st with queue := markProcessing st.queue job.id now } job.document_id =
      Except.error e)
    (hex : job.max_retries ≤ job.retry_count + 1) :
    (processJob splitText embed now st job).1.documents = st.documents ∧
    (processJob splitText embed now st job).1.points = st.points ∧
    ∀ j' ∈ (processJob splitText embed now st job).1.queue, j'.id = job.id →
      j'.status = "failed" ∧ j'.error_message = some (e.take 500) := by
  have hbr : (job.document_type == "ragbot") = true := by
    rw [htype]
    decide
  have hrun : processJob splitText embed now st job =
      ({ st with
          queue :=
            failJobUpdate (markProcessing st.queue job.id now) job e now },
        false) := by
    unfold processJob
    rw [hbr]
    simp [herr]
  rw [hrun]
  refine ⟨rfl, rfl, ?_⟩
  intro j' hj' hid
  have h := (failJobUpdate_mem_spec _ job e now j' hj' hid).1 hex
  exact ⟨h.1, h.2.2.1⟩

/-- Witness for the amended C4 at the concrete missing-file state. -/
theorem job_failure_leaves_document_alone_witness :
    (processJob simpleSplit simpleEmbed 7 c4State c4Job).1.documents =
      c4State.documents ∧
    (processJob simpleSplit simpleEmbed 7 c4State c4Job).1.points =
      c4State.points := by
  have h := job_failure_leaves_document_alone simpleSplit simpleEmbed 7 c4State c4Job
    ("File not found: " ++ c4Doc.file_path) rfl (by rfl) (by decide)
  exact ⟨h.1, h.2.1⟩

/-! ### Claim C3: stale vectors survive a re-index

`_process_ragbot_document` calls `_delete_old_embeddings(file_path, 'ragbot')`
but inserts points whose payload `source` is `"ragbot-data"`, so the scroll
filter never matches the worker's own points and the delete step removes
nothing.  A re-index that shrinks the chunk count therefore leaves the old
higher-index chunks in the store. -/

/-- Point written by a previous two-chunk index of path `p` (chunk 0). -/
def c3OldPoint0 : QdrantPoint :=
  { id := "1:0", vector := [0], file_path := "p", chunk_index := 0,
    chunk_text := "old first chunk", content_hash := "h1", source := "ragbot-data",
    document_id := 1, category := "unknown", tags := [], indexed_at := 3 }

/-- Point written by a previous two-chunk index of path `p` (chunk 1); after
the re-index below it is stale. -/
def c3StalePoint : QdrantPoint :=
  { id := "1:1", vector := [0], file_path := "p", chunk_index := 1,
    chunk_text := "old second chunk", content_hash := "h1", source := "ragbot-data",
    document_id := 1, category := "unknown", tags := [], indexed_at := 3 }

/-- Document record for path `p` after its content changed to hash `h2`. -/
def c3Doc : RagbotDocument :=
  { id := 1, file_path := "p", content_hash := "h2", file_size := 3,
    modified_at := 5, embedding_status := "pending", chunk_count := 2,
    indexed_at := none, error_message := none, metadata := none,
    created_at := 0, updated_at := 5 }

/-- Worker state holding the two old vectors and the new one-chunk content. -/
def c3State : WorkerState :=
  { queue := [], documents := [c3Doc], uploads := [], points := [c3OldPoint0, c3StalePoint],
    files := [("p", "new")], cache := [] }

/-- C3: re-indexing path `p` (new content producing one chunk) leaves the old
chunk-1 vector in the store: the run succeeds, the stale point is still
present, the store holds 2 vectors for the path while the record's
`chunk_count` is 1.  The delete filter requires payload `source = 'ragbot'`
but every inserted point carries `source = 'ragbot-data'`, so the cleanup
deletes nothing. -/
theorem stale_vector_survives_reindex :
    ((processRagbotDocument simpleSplit simpleEmbed 7 c3State 1).toOption.map
      (fun stf => decide (c3StalePoint ∈ stf.points))) = some true ∧
    ((processRagbotDocument simpleSplit simpleEmbed 7 c3State 1).toOption.map
      (fun stf => (stf.points.filter (fun pt => pt.file_path == "p")).length)) =
      some 2 ∧
    ((processRagbotDocument simpleSplit simpleEmbed 7 c3State 1).toOption.bind
      (fun stf => stf.documents.find? (fun d => d.id == 1))).map
        RagbotDocument.chunk_count = some 1 := by decide

/-! ### Claim C1: dequeue is not an atomic claim

The fetch in `process_queue` is a plain `SELECT` and the `processing` update
in `_process_job` is a separate statement, so in the interleaving where both
workers run the fetch before either runs the update, both receive — and then
both claim — the same job. -/

/-- The single pending job both workers will claim. -/
def c1Job : QueueJob :=
  { id := 1, document_type := "ragbot", document_id := 1, priority := 5,
    status := "pending", retry_count := 0, max_retries := 3, error_message := none,
    created_at := 0, started_at := none, completed_at := none }

/-- Initial two-worker state: one pending job, neither worker has fetched. -/
def c1Init : TwoWorkerState :=
  { queue := [c1Job], fetchedA := none, fetchedB := none, claimedA := [], claimedB := [] }

/-- The batch of job ids either worker's fetch returns from `c1Init`. -/
def c1Ids : List Nat := (fetchPendingJobs c1Init.queue 1).map (fun j => j.id)

lemma c1Ids_eq : c1Ids = [1] := by
  have hfilter : c1Init.queue.filter pendingEligible = [c1Job] := by decide
  have hsort : (c1Init.queue.filter pendingEligible).mergeSort jobBefore = [c1Job] := by
    rw [hfilter]
    exact List.perm_singleton.mp (List.mergeSort_perm [c1Job] jobBefore)
  show (((c1Init.queue.filter pendingEligible).mergeSort jobBefore).take 1).map
    (fun j => j.id) = [1]
  rw [hsort]
  decide

lemma c1_mem : 1 ∈ c1Ids := by
  rw [c1Ids_eq]
  exact List.mem_singleton_self 1

/-- State after worker A's fetch. -/
def c1S1 : TwoWorkerState := { c1Init with fetchedA := some c1Ids }

/-- State after worker B's fetch (still before any update). -/
def c1S2 : TwoWorkerState := { c1S1 with fetchedB := some c1Ids }

/-- State after worker A marks job 1 `processing`. -/
def c1S3 : TwoWorkerState :=
  { c1S2 with queue := markProcessing c1S2.queue 1 7, claimedA := 1 :: c1S2.claimedA }

/-- State after worker B also marks job 1 `processing`. -/
def c1S4 : TwoWorkerState :=
  { c1S3 with queue := markProcessing c1S3.queue 1 7, claimedB := 1 :: c1S3.claimedB }

/-- C1: the two-worker interleaving fetch-A, fetch-B, mark-A, mark-B is
reachable from `c1Init` and ends in a state where job 1 has been claimed by
both workers — the selection and the `processing` update are not one atomic
claim, so a job id can be returned to two concurrent dequeuers. -/
theorem dequeue_double_claim :
    ∃ s : TwoWorkerState, TwoWorkerReachable c1Init s ∧
      1 ∈ s.claimedA ∧ 1 ∈ s.claimedB := by
  refine ⟨c1S4, ?_, ?_, ?_⟩
  · exact Relation.ReflTransGen.head (TwoWorkerStep.fetchA c1Init 1 rfl)
      (Relation.ReflTransGen.head (TwoWorkerStep.fetchB c1S1 1 rfl)
        (Relation.ReflTransGen.head (TwoWorkerStep.markA c1S2 1 7 c1Ids rfl c1_mem)
          (Relation.ReflTransGen.single (TwoWorkerStep.markB c1S3 1 7 c1Ids rfl c1_mem))))
  · exact List.mem_cons_self 1 c1S2.claimedA
  · exact List.mem_cons_self 1 c1S3.claimedB

end Ragenie
